import Mathlib

/-!
Verification of the authenticated-session layer of the oypunu frontend.

The embedding models `AuthService` (login, register, social-auth callback,
logout, logoutAllDevices, refreshTokens, token accessors and the role
helpers) as pure state-passing functions over an explicit `AuthState`:
the `localStorage` keys the service touches, the `BehaviorSubject` value
for the current user, the list of values emitted on that subject, and the
list of network calls issued.  Server responses are inputs (`Except`),
since the HTTP client is an external collaborator.

A raw token string is observed by the code only through: its JS
truthiness, the length of `split` on a dot, and the result of decoding
the second component with `atob` + `JSON.parse` and reading its `exp`
claim.  `Token` records exactly those observables; `payload = none`
means the decode chain throws (missing part, bad base64, bad JSON, or a
payload on which reading `.exp` throws).
-/

/-- The `exp` claim of a decoded JWT payload, in seconds; `none` when the
payload object has no (defined) `exp` property. -/
structure JwtPayload where
  exp : Option Nat
  deriving Repr, DecidableEq

/-- Observable structure of a token string. `truthy` is the JS truthiness
of the string (`false` exactly for the empty string); `parts` is the
length of `split` on a dot (at least 1 for a real string); `payload` is
the result of `JSON.parse (atob parts[1])`, `none` when that throws. -/
structure Token where
  truthy : Bool
  parts : Nat
  payload : Option JwtPayload
  deriving Repr, DecidableEq

/-- The user record, as far as this layer inspects it. -/
structure User where
  id : String
  username : String
  email : String
  role : String
  deriving Repr, DecidableEq

/-- The `localStorage` keys written or read by `AuthService`.  The stray
key named `token`, written by `register` and by the social-auth callback,
is kept separate from `access_token`: nothing in the service ever reads
it back. -/
structure Storage where
  access_token : Option Token
  refresh_token : Option Token
  user : Option User
  token : Option Token
  social_auth_token : Option String
  deriving Repr, DecidableEq

/-- Whole observable state of the service: the storage, the current value
of `_currentUserSubject`, and the log of values emitted on it. -/
structure AuthState where
  store : Storage
  currentUser : Option User
  emitted : List (Option User)
  deriving Repr, DecidableEq

/-- Network calls the service can issue.  Router navigation is a pure
presentation effect and is outside the model. -/
inductive NetCall where
  | loginPost
  | registerPost
  | refreshPost
  | logoutPost
  | logoutAllPost
  | socialCallbackGet
  deriving Repr, DecidableEq

/-- Body of a successful login / refresh / social-callback response. -/
structure TokenPair where
  access_token : Token
  refresh_token : Token
  deriving Repr, DecidableEq

/-- `AuthResponse`: tokens plus the user record. -/
structure AuthResponse where
  tokens : TokenPair
  user : User
  deriving Repr, DecidableEq

/-- `RegisterResponse`: the tokens and user are optional, and the flag
says whether e-mail verification is still needed. -/
structure RegisterResponse where
  needsEmailVerification : Bool
  tokens : Option TokenPair
  user : Option User
  deriving Repr, DecidableEq

/-- JS truthiness of a `localStorage.getItem` result holding a token:
`null` and the empty string are falsy. -/
def truthyTok : Option Token → Bool
  | none => false
  | some t => t.truthy

/-- JS truthiness of a `localStorage.getItem` result holding a plain
string. -/
def truthyStr : Option String → Bool
  | none => false
  | some s => !s.isEmpty

namespace AuthService

/-- `_currentUserSubject.next u`: update the subject value and record the
emission. -/
def next (u : Option User) (st : AuthState) : AuthState :=
  { st with currentUser := u, emitted := st.emitted ++ [u] }

/-- `logout()`: fire the revoke POST when a refresh token is stored, then
remove `access_token`, `refresh_token` and `user` and emit `null`.
The stray `token` key is not removed. -/
def logout (st : AuthState) : AuthState × List NetCall :=
  let calls := if truthyTok st.store.refresh_token then [NetCall.logoutPost] else []
  let st' := { st with store :=
    { st.store with access_token := none, refresh_token := none, user := none } }
  (next none st', calls)

/-- `login(email, password)`: POST; on success store both tokens and the
user and emit the user; on error re-throw, leaving state unchanged. -/
def login (st : AuthState) (resp : Except String AuthResponse) :
    AuthState × List NetCall × Except String AuthResponse :=
  match resp with
  | .ok r =>
      let st' := { st with store :=
        { st.store with
            access_token := some r.tokens.access_token,
            refresh_token := some r.tokens.refresh_token,
            user := some r.user } }
      (next (some r.user) st', [NetCall.loginPost], .ok r)
  | .error e => (st, [NetCall.loginPost], .error e)

/-- `register(...)`: POST; on success, when verification is not needed
and both tokens and user are present, store the access token under the
key `token`, store the user, and emit the user.  No refresh token is
stored and `access_token` is untouched. -/
def register (st : AuthState) (resp : Except String RegisterResponse) :
    AuthState × List NetCall × Except String RegisterResponse :=
  match resp with
  | .ok r =>
      match r.needsEmailVerification, r.tokens, r.user with
      | false, some tk, some u =>
          let st' := { st with store :=
            { st.store with token := some tk.access_token, user := some u } }
          (next (some u) st', [NetCall.registerPost], .ok r)
      | _, _, _ => (st, [NetCall.registerPost], .ok r)
  | .error e => (st, [NetCall.registerPost], .error e)

/-- `_handleSocialAuthWindow`, once the popup has closed: when a
`social_auth_token` is stored, remove it and GET the callback; on success
store the access token under the key `token`, store the user, emit the
user.  When no token was stored, fail without a network call. -/
def socialAuthWindowClosed (st : AuthState) (resp : Except String AuthResponse) :
    AuthState × List NetCall × Except String AuthResponse :=
  if truthyStr st.store.social_auth_token then
    let st1 := { st with store := { st.store with social_auth_token := none } }
    match resp with
    | .ok r =>
        let st2 := { st1 with store :=
          { st1.store with token := some r.tokens.access_token, user := some r.user } }
        (next (some r.user) st2, [NetCall.socialCallbackGet], .ok r)
    | .error e => (st1, [NetCall.socialCallbackGet], .error e)
  else
    (st, [], .error "Social auth failed or was cancelled")

/-- `isAuthenticated()`: all three storage keys truthy and a subject
value present. -/
def isAuthenticated (st : AuthState) : Bool :=
  truthyTok st.store.access_token && truthyTok st.store.refresh_token &&
    st.store.user.isSome && st.currentUser.isSome

/-- `getRefreshToken()`. -/
def getRefreshToken (st : AuthState) : Option Token :=
  st.store.refresh_token

/-- `getToken(now)`: read `access_token`; absent or falsy gives `null`.
Decode the payload: a thrown decode runs `logout()` and gives `null`; an
`exp` in the past gives `null` without logout; a missing `exp` compares
as `NaN` and the token is returned. -/
def getToken (st : AuthState) (now : Nat) :
    AuthState × List NetCall × Option Token :=
  match st.store.access_token with
  | none => (st, [], none)
  | some tok =>
      if !tok.truthy then (st, [], none)
      else
        match tok.payload with
        | none =>
            let (st', calls) := logout st
            (st', calls, none)
        | some p =>
            match p.exp with
            | none => (st, [], some tok)
            | some e => if e * 1000 < now then (st, [], none) else (st, [], some tok)

/-- `isTokenExpired(now)`: absent or falsy access token counts as
expired; a thrown decode counts as expired; a missing `exp` compares as
`NaN` and counts as not expired. -/
def isTokenExpired (st : AuthState) (now : Nat) : Bool :=
  match st.store.access_token with
  | none => true
  | some tok =>
      if !tok.truthy then true
      else
        match tok.payload with
        | none => true
        | some p =>
            match p.exp with
            | none => false
            | some e => decide (e * 1000 < now)

/-- `hasValidRefreshToken(now)`: absent or falsy refresh token is
invalid.  When the token has exactly 3 dot-parts and decodes, and its
`exp` claim is truthy (present and nonzero) and in the past, remove the
three session keys, emit `null` and return false.  Every other case
(not 3 parts, thrown decode, absent or zero `exp`, unexpired) returns
true with no state change. -/
def hasValidRefreshToken (st : AuthState) (now : Nat) : AuthState × Bool :=
  match st.store.refresh_token with
  | none => (st, false)
  | some rt =>
      if !rt.truthy then (st, false)
      else if rt.parts = 3 then
        match rt.payload with
        | none => (st, true)
        | some p =>
            match p.exp with
            | none => (st, true)
            | some e =>
                if e ≠ 0 ∧ e * 1000 < now then
                  let st' := { st with store :=
                    { st.store with access_token := none, refresh_token := none, user := none } }
                  (next none st', false)
                else (st, true)
      else (st, true)

/-- `refreshTokens()`: a falsy stored refresh token fails immediately
with no network call and no state change.  Otherwise POST the refresh
endpoint; on success overwrite both tokens (the user record and subject
are untouched); on error run `logout()` and fail. -/
def refreshTokens (st : AuthState) (resp : Except String AuthResponse) :
    AuthState × List NetCall × Except String AuthResponse :=
  if !truthyTok (getRefreshToken st) then
    (st, [], .error "Aucun refresh token disponible")
  else
    match resp with
    | .ok r =>
        let st' := { st with store :=
          { st.store with
              access_token := some r.tokens.access_token,
              refresh_token := some r.tokens.refresh_token } }
        (st', [NetCall.refreshPost], .ok r)
    | .error _ =>
        let (st', calls) := logout st
        (st', NetCall.refreshPost :: calls, .error "Session expirée")

/-- `logoutAllDevices()`: POST the logout-all endpoint; only on success
does the `tap` run the local `logout()`; on error the error is re-thrown
and no local cleanup happens. -/
def logoutAllDevices (st : AuthState) (resp : Except String String) :
    AuthState × List NetCall × Except String String :=
  match resp with
  | .ok m =>
      let (st', calls) := logout st
      (st', NetCall.logoutAllPost :: calls, .ok m)
  | .error e => (st, [NetCall.logoutAllPost], .error e)

/-- `getCurrentUser()`. -/
def getCurrentUser (st : AuthState) : Option User :=
  st.currentUser

/-- `updateCurrentUser(user)`: store the record wholesale and emit it. -/
def updateCurrentUser (st : AuthState) (u : User) : AuthState :=
  next (some u) { st with store := { st.store with user := some u } }

/-- The property names a plain JS object literal inherits from
`Object.prototype`: a lookup on the `roleHierarchy` literal with one of
these keys walks the prototype chain and yields the inherited member,
not `undefined`. -/
def protoKeys : List String :=
  ["constructor", "hasOwnProperty", "isPrototypeOf", "propertyIsEnumerable",
   "toLocaleString", "toString", "valueOf", "__proto__",
   "__defineGetter__", "__defineSetter__", "__lookupGetter__", "__lookupSetter__"]

/-- A JS value as the `roleHierarchy` lookup can produce it: an own
numeric entry, a truthy member inherited from `Object.prototype`, or
`undefined`. -/
inductive JsVal where
  | num (n : Nat)
  | inherited (key : String)
  | undefinedVal
  deriving Repr, DecidableEq

/-- ToPrimitive of an inherited `Object.prototype` member: the accessor
value of `__proto__` stringifies as an object, the other members as
native functions. -/
def jsPrim (key : String) : String :=
  if key = "__proto__" then "[object Object]"
  else "function " ++ key ++ "() \x7b [native code] \x7d"

/-- The JS `|| 0`: `undefined` is falsy and replaced by 0; the own
numeric ranks 1 to 4 and the inherited members are truthy and kept. -/
def orZero : JsVal → JsVal
  | .undefinedVal => .num 0
  | v => v

/-- The JS `>=` on the values above: number against number compares
numerically; inherited member against inherited member compares the
ToPrimitive strings; a number against an inherited member goes through
ToNumber of a non-numeric string, giving NaN, and the comparison is
false — as is any comparison on `undefined`. -/
def jsGe : JsVal → JsVal → Bool
  | .num a, .num b => decide (b ≤ a)
  | .inherited a, .inherited b => !decide (jsPrim a < jsPrim b)
  | _, _ => false

/-- `roleHierarchy[r]` as the program evaluates it: an own entry for the
four table keys, the inherited member for an `Object.prototype`
property name, and `undefined` otherwise. -/
def roleHierarchyLookup (r : String) : JsVal :=
  if r = "user" then .num 1
  else if r = "contributor" then .num 2
  else if r = "admin" then .num 3
  else if r = "superadmin" then .num 4
  else if r ∈ protoKeys then .inherited r
  else .undefinedVal

/-- The numeric rank of a role per the fixed table: the four own entries
of the `roleHierarchy` literal, 0 for any other key.  This is what the
program lookup followed by `|| 0` yields away from the prototype keys;
the lookup itself, prototype chain included, is `roleHierarchyLookup`. -/
def roleHierarchy (r : String) : Nat :=
  if r = "user" then 1
  else if r = "contributor" then 2
  else if r = "admin" then 3
  else if r = "superadmin" then 4
  else 0

/-- `hasMinimumRole(requiredRole)`: a property access on the
`roleHierarchy` object literal for each side, `|| 0` on each result,
then the JS `>=`. -/
def hasMinimumRole (st : AuthState) (requiredRole : String) : Bool :=
  match getCurrentUser st with
  | none => false
  | some u =>
      jsGe (orZero (roleHierarchyLookup u.role)) (orZero (roleHierarchyLookup requiredRole))

/-- `hasRole(role)`. -/
def hasRole (st : AuthState) (role : String) : Bool :=
  match getCurrentUser st with
  | none => false
  | some u => decide (u.role = role)

end AuthService

/-!
The HTTP interceptor routes a 401 into `TokenRefreshManagerService`:
when no refresh is running it starts one, otherwise it waits for the
outcome of the running one (`isCurrentlyRefreshing`,
`getNewTokenWhenAvailable`, `forceReset`).  The service implementing
that coordination is not among the provided source files — only its
call sites in the interceptor are — so the coordinator is modelled
below from the specification of the RefreshCoordinator state machine.
-/

namespace RefreshCoordinator

/-- Outcome broadcast to every waiter of a settled refresh. -/
inductive Outcome where
  | ok (accessToken : String)
  | err (msg : String)
  deriving Repr, DecidableEq

/-- Modelled from the spec: the process-wide `RefreshState` owned by the
RefreshCoordinator, which is absent from the provided sources.
`inFlight` and the FIFO `waiters` queue are the spec fields;
`networkCalls` counts transitions into `Refreshing` (each issues exactly
one refresh network call) and `resolved` logs each caller with the
outcome it received. -/
structure RState where
  inFlight : Bool
  waiters : List Nat
  networkCalls : Nat
  resolved : List (Nat × Outcome)
  deriving Repr, DecidableEq

/-- Modelled from the spec: the `Idle` state with empty queue. -/
def idle : RState :=
  { inFlight := false, waiters := [], networkCalls := 0, resolved := [] }

/-- Modelled from the spec: a caller requests a fresh token.  In `Idle`
this transitions to `Refreshing`, records the caller as first waiter and
issues the one refresh network call; while `Refreshing` the caller is
appended to the queue and no second call is made. -/
def request (c : Nat) (s : RState) : RState :=
  if s.inFlight then
    { s with waiters := s.waiters ++ [c] }
  else
    { s with inFlight := true, waiters := [c], networkCalls := s.networkCalls + 1 }

/-- Modelled from the spec: the in-flight refresh settles with outcome
`o`; every waiter is resolved with `o` in FIFO order in one flush and
the state returns to `Idle`.  A settle with nothing in flight is
discarded. -/
def settle (o : Outcome) (s : RState) : RState :=
  if s.inFlight then
    { s with inFlight := false, waiters := [],
             resolved := s.resolved ++ s.waiters.map (fun c => (c, o)) }
  else s

/-- A batch of concurrent callers arriving in some interleaving order. -/
def requestAll (cs : List Nat) (s : RState) : RState :=
  cs.foldl (fun s c => request c s) s

end RefreshCoordinator

/-! Sample values and the spec invariant used in the statements below. -/

/-- A well-formed JWT-shaped token (3 dot-parts, decodable payload) with
the given `exp` claim. -/
def jwtTok (e : Option Nat) : Token :=
  { truthy := true, parts := 3, payload := some { exp := e } }

/-- A truthy token whose payload decode throws. -/
def malformedTok : Token :=
  { truthy := true, parts := 1, payload := none }

def sampleUser : User :=
  { id := "u1", username := "alice", email := "alice@example.com", role := "user" }

def adminUser : User :=
  { id := "u2", username := "bob", email := "bob@example.com", role := "admin" }

/-- Fresh state: empty storage, no current user, nothing emitted. -/
def emptyState : AuthState :=
  { store := { access_token := none, refresh_token := none, user := none,
               token := none, social_auth_token := none },
    currentUser := none, emitted := [] }

/-- A fully-logged-in state holding the given tokens and user. -/
def fullState (a r : Token) (u : User) : AuthState :=
  { store := { access_token := some a, refresh_token := some r, user := some u,
               token := none, social_auth_token := none },
    currentUser := some u, emitted := [] }

/-- The Session invariant of the spec: the persisted session is either
fully present (access token, refresh token and user all set) or fully
absent. -/
def sessionAtomic (s : Storage) : Prop :=
  (s.access_token ≠ none ∧ s.refresh_token ≠ none ∧ s.user ≠ none) ∨
  (s.access_token = none ∧ s.refresh_token = none ∧ s.user = none)

instance (s : Storage) : Decidable (sessionAtomic s) := by
  unfold sessionAtomic
  infer_instance

/-! Helper lemmas for the coordinator. -/

theorem requestAll_inFlight (cs : List Nat) (s : RefreshCoordinator.RState)
    (h : s.inFlight = true) :
    RefreshCoordinator.requestAll cs s = { s with waiters := s.waiters ++ cs } := by
  induction cs generalizing s with
  | nil => simp [RefreshCoordinator.requestAll]
  | cons c rest ih =>
      have hstep : RefreshCoordinator.request c s = { s with waiters := s.waiters ++ [c] } := by
        simp [RefreshCoordinator.request, h]
      have : RefreshCoordinator.requestAll (c :: rest) s
          = RefreshCoordinator.requestAll rest (RefreshCoordinator.request c s) := rfl
      rw [this, hstep, ih _ (by simp [h])]
      simp

/-- C1: starting from `Idle`, any nonempty batch of concurrent refresh
requests followed by the settlement of the in-flight refresh results in
exactly one refresh network call, every caller resolved with the same
outcome (in FIFO order), and the coordinator back in `Idle`. -/
theorem c1_single_flight_same_outcome (cs : List Nat)
    (o : RefreshCoordinator.Outcome) (h : cs ≠ []) :
    (RefreshCoordinator.settle o
      (RefreshCoordinator.requestAll cs RefreshCoordinator.idle)).networkCalls = 1 ∧
    (RefreshCoordinator.settle o
      (RefreshCoordinator.requestAll cs RefreshCoordinator.idle)).resolved
        = cs.map (fun c => (c, o)) ∧
    (RefreshCoordinator.settle o
      (RefreshCoordinator.requestAll cs RefreshCoordinator.idle)).inFlight = false := by
  match cs, h with
  | c :: rest, _ =>
    have hfirst : RefreshCoordinator.request c RefreshCoordinator.idle
        = { inFlight := true, waiters := [c], networkCalls := 1, resolved := [] } := by
      simp [RefreshCoordinator.request, RefreshCoordinator.idle]
    have hall : RefreshCoordinator.requestAll (c :: rest) RefreshCoordinator.idle
        = { inFlight := true, waiters := c :: rest, networkCalls := 1, resolved := [] } := by
      have : RefreshCoordinator.requestAll (c :: rest) RefreshCoordinator.idle
          = RefreshCoordinator.requestAll rest
              (RefreshCoordinator.request c RefreshCoordinator.idle) := rfl
      rw [this, hfirst, requestAll_inFlight rest _ rfl]
      simp
    rw [hall]
    simp [RefreshCoordinator.settle]

theorem c1_single_flight_same_outcome_witness :
    ([7, 8, 9] : List Nat) ≠ [] ∧
    (RefreshCoordinator.settle (RefreshCoordinator.Outcome.ok "newTok")
      (RefreshCoordinator.requestAll [7, 8, 9] RefreshCoordinator.idle)).networkCalls = 1 ∧
    (RefreshCoordinator.settle (RefreshCoordinator.Outcome.ok "newTok")
      (RefreshCoordinator.requestAll [7, 8, 9] RefreshCoordinator.idle)).resolved
        = [(7, RefreshCoordinator.Outcome.ok "newTok"),
           (8, RefreshCoordinator.Outcome.ok "newTok"),
           (9, RefreshCoordinator.Outcome.ok "newTok")] := by
  refine ⟨by decide, ?_, ?_⟩
  · exact (c1_single_flight_same_outcome [7, 8, 9]
      (RefreshCoordinator.Outcome.ok "newTok") (by decide)).1
  · have h := (c1_single_flight_same_outcome [7, 8, 9]
      (RefreshCoordinator.Outcome.ok "newTok") (by decide)).2.1
    simpa using h

/-! Concrete scenario states shared by the statements below. -/

/-- A successful registration response carrying tokens and the user,
with no e-mail verification pending. -/
def registerOkResp : RegisterResponse :=
  { needsEmailVerification := false,
    tokens := some { access_token := jwtTok (some 99), refresh_token := jwtTok (some 999) },
    user := some sampleUser }

/-- The state after such a registration from a fresh state. -/
def registeredState : AuthState :=
  (AuthService.register emptyState (Except.ok registerOkResp)).1

/-- A fresh state in which the social popup has deposited its one-time
token. -/
def socialStartState : AuthState :=
  { emptyState with store := { emptyState.store with social_auth_token := some "stok" } }

/-- The state after the social-auth callback succeeded from there. -/
def socialDoneState : AuthState :=
  (AuthService.socialAuthWindowClosed socialStartState
    (Except.ok { tokens := { access_token := jwtTok (some 99),
                             refresh_token := jwtTok (some 999) },
                 user := sampleUser })).1

/-- C2 (code bug): a successful `register` with tokens and user present
and no e-mail verification pending, from an empty store, persists the
user record with no refresh token — the access token goes to the unused
key `token` — so the all-or-nothing Session invariant is violated; the
social-auth callback leaves the same partial session. -/
theorem c2_register_partial_session :
    ¬ sessionAtomic registeredState.store ∧
    registeredState.store.user = some sampleUser ∧
    registeredState.store.refresh_token = none ∧
    registeredState.store.access_token = none ∧
    registeredState.store.token = some (jwtTok (some 99)) ∧
    ¬ sessionAtomic socialDoneState.store := by
  refine ⟨by decide, rfl, rfl, rfl, rfl, by decide⟩

/-- C3 counterexample: when the logout-all network call fails, the local
logout does not run — tokens, user record, subject value and emission
log are all left exactly as they were — refuting the claim that the
local logout follows regardless of the server outcome. -/
theorem c3_logout_all_failure_keeps_session :
    (AuthService.logoutAllDevices
        (fullState (jwtTok (some 99)) (jwtTok (some 999)) sampleUser)
        (Except.error "network down")).1
      = fullState (jwtTok (some 99)) (jwtTok (some 999)) sampleUser ∧
    (fullState (jwtTok (some 99)) (jwtTok (some 999)) sampleUser).store.access_token
      ≠ none := by
  refine ⟨rfl, by decide⟩

/-- C3 amended: `logoutAllDevices` runs the local logout (clearing all
three session fields and emitting no-user) only when the server call
succeeds; when it fails, the state is returned unchanged and the error
is surfaced. -/
theorem c3_logout_all_cleanup_on_success_only (st : AuthState) (m e : String) :
    ((AuthService.logoutAllDevices st (Except.ok m)).1.store.access_token = none ∧
     (AuthService.logoutAllDevices st (Except.ok m)).1.store.refresh_token = none ∧
     (AuthService.logoutAllDevices st (Except.ok m)).1.store.user = none ∧
     (AuthService.logoutAllDevices st (Except.ok m)).1.currentUser = none ∧
     (AuthService.logoutAllDevices st (Except.ok m)).1.emitted = st.emitted ++ [none]) ∧
    (AuthService.logoutAllDevices st (Except.error e)).1 = st ∧
    (AuthService.logoutAllDevices st (Except.error e)).2.2 = Except.error e := by
  simp [AuthService.logoutAllDevices, AuthService.logout, AuthService.next]

/-- C4 counterexample: with a malformed (undecodable) access token in a
full session, `getToken` clears the whole stored session, emits no-user
and fires the logout revoke call — refuting the claim that the session
is not cleared and logout is not forced. -/
theorem c4_malformed_access_token_forces_logout :
    (fullState malformedTok (jwtTok (some 999)) sampleUser).store.user = some sampleUser ∧
    (AuthService.getToken (fullState malformedTok (jwtTok (some 999)) sampleUser) 1000).1.store.user = none ∧
    (AuthService.getToken (fullState malformedTok (jwtTok (some 999)) sampleUser) 1000).1.store.access_token = none ∧
    (AuthService.getToken (fullState malformedTok (jwtTok (some 999)) sampleUser) 1000).1.currentUser = none ∧
    (AuthService.getToken (fullState malformedTok (jwtTok (some 999)) sampleUser) 1000).2.1 = [NetCall.logoutPost] ∧
    (AuthService.getToken (fullState malformedTok (jwtTok (some 999)) sampleUser) 1000).2.2 = none := by
  refine ⟨rfl, rfl, rfl, rfl, rfl, rfl⟩

/-- C4 amended: for a stored, truthy but undecodable access token,
`isTokenExpired` reports it expired (with no side effect, being a pure
read), while `getToken` does not fall back to a refresh: it forces a
logout — all three session fields cleared and no-user set — and
returns none. -/
theorem c4_malformed_token_policy (st : AuthState) (now : Nat) (tok : Token)
    (h1 : st.store.access_token = some tok) (h2 : tok.truthy = true)
    (h3 : tok.payload = none) :
    AuthService.isTokenExpired st now = true ∧
    (AuthService.getToken st now).1.store.access_token = none ∧
    (AuthService.getToken st now).1.store.refresh_token = none ∧
    (AuthService.getToken st now).1.store.user = none ∧
    (AuthService.getToken st now).1.currentUser = none ∧
    (AuthService.getToken st now).2.2 = none := by
  simp [AuthService.isTokenExpired, AuthService.getToken, h1, h2, h3,
    AuthService.logout, AuthService.next]

theorem c4_malformed_token_policy_witness :
    AuthService.isTokenExpired (fullState malformedTok (jwtTok (some 999)) sampleUser) 1000 = true ∧
    (AuthService.getToken (fullState malformedTok (jwtTok (some 999)) sampleUser) 1000).1.store.access_token = none ∧
    (AuthService.getToken (fullState malformedTok (jwtTok (some 999)) sampleUser) 1000).1.store.refresh_token = none ∧
    (AuthService.getToken (fullState malformedTok (jwtTok (some 999)) sampleUser) 1000).1.store.user = none ∧
    (AuthService.getToken (fullState malformedTok (jwtTok (some 999)) sampleUser) 1000).1.currentUser = none ∧
    (AuthService.getToken (fullState malformedTok (jwtTok (some 999)) sampleUser) 1000).2.2 = none :=
  c4_malformed_token_policy _ 1000 malformedTok rfl rfl rfl

/-- C5 counterexample: a well-formed JWT refresh token whose `exp` claim
is 0 — an expiry in the past of any positive clock — is reported valid
and nothing is cleared, because the JS truthiness guard on `exp` skips
the zero value.  This refutes the claim for the input exp = 0. -/
theorem c5_zero_exp_refresh_token_kept :
    AuthService.hasValidRefreshToken
        (fullState (jwtTok (some 1)) (jwtTok (some 0)) sampleUser) 1700000000000
      = (fullState (jwtTok (some 1)) (jwtTok (some 0)) sampleUser, true) ∧
    0 * 1000 < 1700000000000 := by
  refine ⟨rfl, by norm_num⟩

/-- C5 amended: for a stored, truthy, 3-part refresh token that decodes
to a payload whose `exp` claim is present, nonzero and in the past,
`hasValidRefreshToken` returns false and clears the session: all three
session fields removed and no-user emitted. -/
theorem c5_expired_refresh_token_clears (st : AuthState) (now : Nat)
    (rt : Token) (e : Nat)
    (h1 : st.store.refresh_token = some rt) (h2 : rt.truthy = true)
    (h3 : rt.parts = 3) (h4 : rt.payload = some { exp := some e })
    (h5 : e ≠ 0) (h6 : e * 1000 < now) :
    (AuthService.hasValidRefreshToken st now).2 = false ∧
    (AuthService.hasValidRefreshToken st now).1.store.access_token = none ∧
    (AuthService.hasValidRefreshToken st now).1.store.refresh_token = none ∧
    (AuthService.hasValidRefreshToken st now).1.store.user = none ∧
    (AuthService.hasValidRefreshToken st now).1.currentUser = none ∧
    (AuthService.hasValidRefreshToken st now).1.emitted = st.emitted ++ [none] := by
  simp [AuthService.hasValidRefreshToken, h1, h2, h3, h4, h5, h6, AuthService.next]

theorem c5_expired_refresh_token_clears_witness :
    (AuthService.hasValidRefreshToken
        (fullState (jwtTok (some 1)) (jwtTok (some 5)) sampleUser) 10000).2 = false ∧
    (AuthService.hasValidRefreshToken
        (fullState (jwtTok (some 1)) (jwtTok (some 5)) sampleUser) 10000).1.store.access_token = none ∧
    (AuthService.hasValidRefreshToken
        (fullState (jwtTok (some 1)) (jwtTok (some 5)) sampleUser) 10000).1.store.refresh_token = none ∧
    (AuthService.hasValidRefreshToken
        (fullState (jwtTok (some 1)) (jwtTok (some 5)) sampleUser) 10000).1.store.user = none ∧
    (AuthService.hasValidRefreshToken
        (fullState (jwtTok (some 1)) (jwtTok (some 5)) sampleUser) 10000).1.currentUser = none ∧
    (AuthService.hasValidRefreshToken
        (fullState (jwtTok (some 1)) (jwtTok (some 5)) sampleUser) 10000).1.emitted
      = (fullState (jwtTok (some 1)) (jwtTok (some 5)) sampleUser).emitted ++ [none] :=
  c5_expired_refresh_token_clears _ 10000 (jwtTok (some 5)) 5 rfl rfl rfl rfl
    (by norm_num) (by norm_num)

/-- C6: `refreshTokens` with no stored refresh token fails immediately
with the no-refresh-token error, issues no network call and leaves all
stored state unchanged, whatever the server would have answered. -/
theorem c6_refresh_without_token_fails_fast (st : AuthState)
    (resp : Except String AuthResponse) (h : st.store.refresh_token = none) :
    AuthService.refreshTokens st resp
      = (st, [], Except.error "Aucun refresh token disponible") := by
  simp [AuthService.refreshTokens, AuthService.getRefreshToken, h, truthyTok]

theorem c6_refresh_without_token_fails_fast_witness :
    AuthService.refreshTokens emptyState (Except.error "srv")
      = (emptyState, [], Except.error "Aucun refresh token disponible") :=
  c6_refresh_without_token_fails_fast emptyState (Except.error "srv") rfl

/-! Helper lemmas about the role lookup. -/

theorem lookup_not_proto (s : String) (h : s ∉ AuthService.protoKeys) :
    AuthService.orZero (AuthService.roleHierarchyLookup s)
      = AuthService.JsVal.num (AuthService.roleHierarchy s) := by
  by_cases h1 : s = "user"
  · simp [AuthService.roleHierarchyLookup, AuthService.roleHierarchy, h1, AuthService.orZero]
  by_cases h2 : s = "contributor"
  · simp [AuthService.roleHierarchyLookup, AuthService.roleHierarchy, h1, h2, AuthService.orZero]
  by_cases h3 : s = "admin"
  · simp [AuthService.roleHierarchyLookup, AuthService.roleHierarchy, h1, h2, h3, AuthService.orZero]
  by_cases h4 : s = "superadmin"
  · simp [AuthService.roleHierarchyLookup, AuthService.roleHierarchy, h1, h2, h3, h4, AuthService.orZero]
  simp [AuthService.roleHierarchyLookup, AuthService.roleHierarchy, h1, h2, h3, h4, h, AuthService.orZero]

theorem lookup_proto (s : String) (h : s ∈ AuthService.protoKeys) :
    AuthService.roleHierarchyLookup s = AuthService.JsVal.inherited s := by
  have h1 : s ≠ "user" := by intro hh; subst hh; exact absurd h (by decide)
  have h2 : s ≠ "contributor" := by intro hh; subst hh; exact absurd h (by decide)
  have h3 : s ≠ "admin" := by intro hh; subst hh; exact absurd h (by decide)
  have h4 : s ≠ "superadmin" := by intro hh; subst hh; exact absurd h (by decide)
  simp [AuthService.roleHierarchyLookup, h1, h2, h3, h4, h]

theorem jsGe_rank_of_table (s : String) (k : Nat)
    (hk : 1 ≤ k) :
    AuthService.jsGe (AuthService.orZero (AuthService.roleHierarchyLookup s))
        (AuthService.JsVal.num k)
      = decide (k ≤ AuthService.roleHierarchy s) := by
  by_cases hp : s ∈ AuthService.protoKeys
  · rw [lookup_proto s hp]
    have h0 : AuthService.roleHierarchy s = 0 := by
      have h1 : s ≠ "user" := by intro hh; subst hh; exact absurd hp (by decide)
      have h2 : s ≠ "contributor" := by intro hh; subst hh; exact absurd hp (by decide)
      have h3 : s ≠ "admin" := by intro hh; subst hh; exact absurd hp (by decide)
      have h4 : s ≠ "superadmin" := by intro hh; subst hh; exact absurd hp (by decide)
      simp [AuthService.roleHierarchy, h1, h2, h3, h4]
    have hnk : ¬ (k ≤ 0) := by omega
    rw [h0]
    simp [AuthService.orZero, AuthService.jsGe, hnk]
  · rw [lookup_not_proto s hp]
    simp [AuthService.jsGe]

/-- C7: with no current user `hasMinimumRole` is false; for a required
role from the fixed rank table (user=1, contributor=2, admin=3,
superadmin=4) and a current user present, it is true exactly when the
rank of the user role — its table value, 0 when outside the table — is
at least the rank of the required role. -/
theorem c7_has_minimum_role_rank (st : AuthState) (required : String) :
    (st.currentUser = none → AuthService.hasMinimumRole st required = false) ∧
    (required ∈ (["user", "contributor", "admin", "superadmin"] : List String) →
      ∀ u, st.currentUser = some u →
        (AuthService.hasMinimumRole st required = true ↔
          AuthService.roleHierarchy required ≤ AuthService.roleHierarchy u.role)) ∧
    AuthService.roleHierarchy "user" = 1 ∧
    AuthService.roleHierarchy "contributor" = 2 ∧
    AuthService.roleHierarchy "admin" = 3 ∧
    AuthService.roleHierarchy "superadmin" = 4 := by
  refine ⟨?_, ?_, by decide, by decide, by decide, by decide⟩
  · intro h
    simp [AuthService.hasMinimumRole, AuthService.getCurrentUser, h]
  · intro hreq u h
    have hmain : ∀ req : String, req ∉ AuthService.protoKeys →
        1 ≤ AuthService.roleHierarchy req →
        (AuthService.hasMinimumRole st req = true ↔
          AuthService.roleHierarchy req ≤ AuthService.roleHierarchy u.role) := by
      intro req hlp hk
      have hred : AuthService.hasMinimumRole st req
          = AuthService.jsGe
              (AuthService.orZero (AuthService.roleHierarchyLookup u.role))
              (AuthService.orZero (AuthService.roleHierarchyLookup req)) := by
        simp [AuthService.hasMinimumRole, AuthService.getCurrentUser, h]
      rw [hred, lookup_not_proto req hlp, jsGe_rank_of_table u.role _ hk]
      simp
    simp only [List.mem_cons, List.not_mem_nil, or_false] at hreq
    rcases hreq with h1 | h1 | h1 | h1 <;> subst h1 <;>
      exact hmain _ (by decide) (by decide)

theorem c7_has_minimum_role_rank_witness :
    AuthService.hasMinimumRole emptyState "admin" = false ∧
    AuthService.hasMinimumRole
      (fullState (jwtTok (some 1)) (jwtTok (some 2)) adminUser) "contributor" = true :=
  ⟨(c7_has_minimum_role_rank emptyState "admin").1 rfl,
   ((c7_has_minimum_role_rank
      (fullState (jwtTok (some 1)) (jwtTok (some 2)) adminUser) "contributor").2.1
        (by decide) adminUser rfl).mpr (by decide)⟩

/-- C8: `updateCurrentUser` replaces the stored user record wholesale
and emits it on the subject, while every other storage key — in
particular both tokens — is unchanged. -/
theorem c8_update_current_user_frame (st : AuthState) (u : User) :
    (AuthService.updateCurrentUser st u).store.user = some u ∧
    (AuthService.updateCurrentUser st u).currentUser = some u ∧
    (AuthService.updateCurrentUser st u).emitted = st.emitted ++ [some u] ∧
    (AuthService.updateCurrentUser st u).store.access_token = st.store.access_token ∧
    (AuthService.updateCurrentUser st u).store.refresh_token = st.store.refresh_token ∧
    (AuthService.updateCurrentUser st u).store.token = st.store.token ∧
    (AuthService.updateCurrentUser st u).store.social_auth_token
      = st.store.social_auth_token := by
  simp [AuthService.updateCurrentUser, AuthService.next]

/-- C9 counterexample: `toString` is outside the role table, yet with a
logged-in user (role `user`) `hasMinimumRole` returns false, not true:
the lookup resolves `toString` through the prototype chain to the
inherited truthy member, the `|| 0` default never fires, and the
numeric comparison against the non-numeric member is false. -/
theorem c9_prototype_key_required_denied :
    AuthService.hasMinimumRole
      (fullState (jwtTok (some 1)) (jwtTok (some 2)) sampleUser) "toString" = false ∧
    "toString" ∉ (["user", "contributor", "admin", "superadmin"] : List String) ∧
    (fullState (jwtTok (some 1)) (jwtTok (some 2)) sampleUser).currentUser
      = some sampleUser := by
  refine ⟨by decide, by decide, rfl⟩

/-- C9 amended: with a current user whose own role is not an inherited
`Object.prototype` property name, a required role outside the rank
table is granted exactly when it is not an `Object.prototype` property
name itself: then the lookup is `undefined`, `|| 0` ranks it 0 and the
comparison holds; for an inherited name (`toString`, `hasOwnProperty`,
`__proto__`, ...) the prototype chain yields a truthy non-numeric
member, `|| 0` is skipped, and the comparison is false. -/
theorem c9_unknown_role_prototype_chain (st : AuthState) (u : User)
    (required : String) (hu : st.currentUser = some u)
    (hr : u.role ∉ AuthService.protoKeys)
    (hn : required ∉ (["user", "contributor", "admin", "superadmin"] : List String)) :
    (required ∉ AuthService.protoKeys →
      AuthService.hasMinimumRole st required = true) ∧
    (required ∈ AuthService.protoKeys →
      AuthService.hasMinimumRole st required = false) := by
  have hred : AuthService.hasMinimumRole st required
      = AuthService.jsGe
          (AuthService.orZero (AuthService.roleHierarchyLookup u.role))
          (AuthService.orZero (AuthService.roleHierarchyLookup required)) := by
    simp [AuthService.hasMinimumRole, AuthService.getCurrentUser, hu]
  have h0 : AuthService.roleHierarchy required = 0 := by
    have h1 : required ≠ "user" := by intro hh; exact hn (by simp [hh])
    have h2 : required ≠ "contributor" := by intro hh; exact hn (by simp [hh])
    have h3 : required ≠ "admin" := by intro hh; exact hn (by simp [hh])
    have h4 : required ≠ "superadmin" := by intro hh; exact hn (by simp [hh])
    simp [AuthService.roleHierarchy, h1, h2, h3, h4]
  constructor
  · intro hp
    rw [hred, lookup_not_proto required hp, h0, lookup_not_proto u.role hr]
    simp [AuthService.jsGe]
  · intro hp
    rw [hred, lookup_proto required hp, lookup_not_proto u.role hr]
    simp [AuthService.orZero, AuthService.jsGe]

theorem c9_unknown_role_prototype_chain_witness :
    AuthService.hasMinimumRole
      (fullState (jwtTok (some 1)) (jwtTok (some 2)) sampleUser) "moderator" = true ∧
    AuthService.hasMinimumRole
      (fullState (jwtTok (some 1)) (jwtTok (some 2)) sampleUser) "hasOwnProperty" = false :=
  ⟨(c9_unknown_role_prototype_chain
      (fullState (jwtTok (some 1)) (jwtTok (some 2)) sampleUser) sampleUser
      "moderator" rfl (by decide) (by decide)).1 (by decide),
   (c9_unknown_role_prototype_chain
      (fullState (jwtTok (some 1)) (jwtTok (some 2)) sampleUser) sampleUser
      "hasOwnProperty" rfl (by decide) (by decide)).2 (by decide)⟩

/-- C10: a successful `register` with tokens and user present and no
verification pending stores the access token under the key `token`,
leaves `access_token` and `refresh_token` untouched, and (starting with
no stored access token) `isAuthenticated` is false right afterwards. -/
theorem c10_register_token_key_mismatch (st : AuthState) (tk : TokenPair)
    (u : User) (h : st.store.access_token = none) :
    (AuthService.register st (Except.ok ⟨false, some tk, some u⟩)).1.store.token
        = some tk.access_token ∧
    (AuthService.register st (Except.ok ⟨false, some tk, some u⟩)).1.store.access_token
        = none ∧
    (AuthService.register st (Except.ok ⟨false, some tk, some u⟩)).1.store.refresh_token
        = st.store.refresh_token ∧
    AuthService.isAuthenticated
        (AuthService.register st (Except.ok ⟨false, some tk, some u⟩)).1 = false := by
  simp [AuthService.register, AuthService.next, AuthService.isAuthenticated, h, truthyTok]

theorem c10_register_token_key_mismatch_witness :
    (AuthService.register emptyState
        (Except.ok ⟨false, some ⟨jwtTok (some 99), jwtTok (some 999)⟩, some sampleUser⟩)).1.store.token
      = some (jwtTok (some 99)) ∧
    (AuthService.register emptyState
        (Except.ok ⟨false, some ⟨jwtTok (some 99), jwtTok (some 999)⟩, some sampleUser⟩)).1.store.access_token
      = none ∧
    (AuthService.register emptyState
        (Except.ok ⟨false, some ⟨jwtTok (some 99), jwtTok (some 999)⟩, some sampleUser⟩)).1.store.refresh_token
      = emptyState.store.refresh_token ∧
    AuthService.isAuthenticated
      (AuthService.register emptyState
        (Except.ok ⟨false, some ⟨jwtTok (some 99), jwtTok (some 999)⟩, some sampleUser⟩)).1 = false :=
  c10_register_token_key_mismatch emptyState ⟨jwtTok (some 99), jwtTok (some 999)⟩
    sampleUser rfl
